import Mathlib

/-!
Verification development for the crypto-signal-bot repository.

We shallowly embed the signal-scoring core (internal/services/learning_engine.go,
internal/services/technical_analyzer.go, internal/services/coinmarketcap_service.go)
into Lean.  The Go code computes with github.com/shopspring/decimal, an exact
arbitrary-precision decimal type; we model every decimal value as a rational
number `ℚ`.  Go `float64` round-trips (such as `float64(buySignals)/float64(len(signals))`
passed through `decimal.NewFromFloat`) are likewise modelled as exact rational
arithmetic; none of the verified claims depends on the final binary digits of
those conversions.  `math.Sqrt`, which is used only inside the Bollinger
standard deviation, is kept abstract as an explicit function parameter.
-/

set_option linter.unusedVariables false

namespace CryptoSignalBot

/-- Numeric configuration thresholds read by the scoring core
(struct `Config` in internal/utils/helpers.go, fields used by the services). -/
structure Config where
  minConfidenceThreshold : ℚ := 7/10
  maxSignalsPerDay : ℤ := 10
  stopLossPercentage : ℚ := 5
  takeProfit1Percentage : ℚ := 3
  takeProfit2Percentage : ℚ := 6
  rsiOversoldThreshold : ℚ := 30
  rsiOverboughtThreshold : ℚ := 70
  fearGreedMinThreshold : ℤ := 20
  fearGreedMaxThreshold : ℤ := 80

/-- One JSON value inside a kline row (`[][]interface{}` in Go).  A Go type
assertion with the ok-flag ignored yields the zero value on mismatch. -/
inductive KValue
  | kNum : ℚ → KValue
  | kStr : String → KValue
  | kOther : KValue

/-- Go `x, _ := v.(float64)`: the number, or the zero value on mismatch. -/
def KValue.asFloat : KValue → ℚ
  | .kNum q => q
  | _ => 0

/-- Go `s, _ := v.(string)`: the string, or the empty string on mismatch. -/
def KValue.asString : KValue → String
  | .kStr s => s
  | _ => ""

/-- Market snapshot handed to the analyzer (struct `MarketData` in the
data-collector service).  The Go `time.Time` timestamp is irrelevant to the
scoring math and omitted. -/
structure MarketData where
  symbol : String := ""
  price : ℚ := 0
  volume24h : ℚ := 0
  marketCap : ℚ := 0
  priceChange1h : ℚ := 0
  priceChange24h : ℚ := 0
  priceChange7d : ℚ := 0
  fearGreedIndex : ℤ := 0
  klineData : List (List KValue) := []

/-- Indicator set produced by `AnalyzeMarketData`
(struct `TechnicalIndicators` in internal/services/technical_analyzer.go). -/
structure TechnicalIndicators where
  rsi : ℚ := 0
  macdLine : ℚ := 0
  macdSignal : ℚ := 0
  macdHistogram : ℚ := 0
  bbUpper : ℚ := 0
  bbMiddle : ℚ := 0
  bbLower : ℚ := 0
  sma20 : ℚ := 0
  ema12 : ℚ := 0
  ema26 : ℚ := 0
  volume : ℚ := 0
  stochK : ℚ := 0
  stochD : ℚ := 0
  williams : ℚ := 0
  currentPrice : ℚ := 0
  previousPrice : ℚ := 0
  highestHigh : ℚ := 0
  lowestLow : ℚ := 0

/-- Decision record built by `analyzeMarketConditions`
(struct `SignalDecision` in internal/services/learning_engine.go).
The reasoning strings and the marketConditions map carry no scoring
information and are omitted. -/
structure SignalDecision where
  action : String
  confidence : ℚ
  entryPrice : ℚ
  stopLoss : ℚ
  takeProfit1 : ℚ
  takeProfit2 : ℚ
deriving DecidableEq

/-! ## The five voting rule groups of `analyzeMarketConditions`
Each group appends at most one entry to the parallel `signals` /
`confidenceFactors` slices.  We represent a cast vote as a pair of the
direction (`true` = "BUY", `false` = "SELL") and its weight. -/

/-- Turn a group's optional directional vote into its slice contribution. -/
def groupVote : Option Bool → ℚ → List (Bool × ℚ)
  | some b, w => [(b, w)]
  | none, _ => []

/-- Concatenation of the five rule groups' contributions, in source order,
with the fixed weights 0.30, 0.25, 0.20, 0.15, 0.10. -/
def comboVotes (v1 v2 v3 v4 v5 : Option Bool) : List (Bool × ℚ) :=
  groupVote v1 (3/10) ++ groupVote v2 (1/4) ++ groupVote v3 (1/5) ++
    groupVote v4 (3/20) ++ groupVote v5 (1/10)

/-- RSI rule group: oversold ⇒ BUY, overbought ⇒ SELL (weight 0.30). -/
def rsiVote (cfg : Config) (ind : TechnicalIndicators) : Option Bool :=
  if ind.rsi < cfg.rsiOversoldThreshold then some true
  else if ind.rsi > cfg.rsiOverboughtThreshold then some false
  else none

/-- MACD rule group: bullish/bearish crossover with matching histogram sign
(weight 0.25). -/
def macdVote (ind : TechnicalIndicators) : Option Bool :=
  if ind.macdLine > ind.macdSignal ∧ ind.macdHistogram > 0 then some true
  else if ind.macdLine < ind.macdSignal ∧ ind.macdHistogram < 0 then some false
  else none

/-- Bollinger-band rule group: price beyond the outer bands (weight 0.20). -/
def bbVote (md : MarketData) (ind : TechnicalIndicators) : Option Bool :=
  if md.price < ind.bbLower then some true
  else if md.price > ind.bbUpper then some false
  else none

/-- Fear-and-greed rule group: index beyond min/max thresholds (weight 0.15). -/
def fearGreedVote (cfg : Config) (md : MarketData) : Option Bool :=
  if md.fearGreedIndex < cfg.fearGreedMinThreshold then some true
  else if md.fearGreedIndex > cfg.fearGreedMaxThreshold then some false
  else none

/-- Price-action rule group: price vs SMA20 together with the EMA12/EMA26
crossover (weight 0.10). -/
def priceActionVote (md : MarketData) (ind : TechnicalIndicators) : Option Bool :=
  if md.price > ind.sma20 ∧ ind.ema12 > ind.ema26 then some true
  else if md.price < ind.sma20 ∧ ind.ema12 < ind.ema26 then some false
  else none

/-- The `signals`/`confidenceFactors` slices built by `analyzeMarketConditions`,
lines 444-503 of internal/services/learning_engine.go. -/
def ruleVotes (cfg : Config) (md : MarketData) (ind : TechnicalIndicators) :
    List (Bool × ℚ) :=
  comboVotes (rsiVote cfg ind) (macdVote ind) (bbVote md ind)
    (fearGreedVote cfg md) (priceActionVote md ind)

/-- `buySignals` tally of the final-signal loop. -/
def buyCount (votes : List (Bool × ℚ)) : ℕ := votes.countP (fun v => v.1)

/-- `sellSignals` tally of the final-signal loop. -/
def sellCount (votes : List (Bool × ℚ)) : ℕ := votes.countP (fun v => !v.1)

/-- `totalConfidence`: the sum of every cast vote's weight. -/
def weightSum (votes : List (Bool × ℚ)) : ℚ := (votes.map Prod.snd).sum

/-- Action selection of the decision logic (more BUY than SELL ⇒ BUY,
more SELL than BUY ⇒ SELL, tie ⇒ HOLD). -/
def tallyAction (votes : List (Bool × ℚ)) : String :=
  if buyCount votes > sellCount votes then "BUY"
  else if sellCount votes > buyCount votes then "SELL"
  else "HOLD"

/-- Confidence of the decision logic: the total weight of all cast votes
multiplied by the winning-direction vote ratio; fixed 0.1 on a tie. -/
def tallyConfidence (votes : List (Bool × ℚ)) : ℚ :=
  if buyCount votes > sellCount votes then
    weightSum votes * ((buyCount votes : ℚ) / (votes.length : ℚ))
  else if sellCount votes > buyCount votes then
    weightSum votes * ((sellCount votes : ℚ) / (votes.length : ℚ))
  else 1/10

/-- `analyzeMarketConditions` (internal/services/learning_engine.go, lines
429-574): evaluate the five rule groups, tally the votes, and attach
direction-dependent price targets.  The `stopLoss`/`takeProfit` variables are
zero-valued decimals unless the BUY or SELL branch assigns them. -/
def analyzeMarketConditions (cfg : Config) (md : MarketData)
    (ind : TechnicalIndicators) : SignalDecision :=
  let votes := ruleVotes cfg md ind
  let action := tallyAction votes
  let confidence := tallyConfidence votes
  let currentPrice := md.price
  let stopLossPercent := cfg.stopLossPercentage / 100
  let takeProfit1Percent := cfg.takeProfit1Percentage / 100
  let takeProfit2Percent := cfg.takeProfit2Percentage / 100
  let stopLoss : ℚ :=
    if action = "BUY" then currentPrice * (1 - stopLossPercent)
    else if action = "SELL" then currentPrice * (1 + stopLossPercent)
    else 0
  let takeProfit1 : ℚ :=
    if action = "BUY" then currentPrice * (1 + takeProfit1Percent)
    else if action = "SELL" then currentPrice * (1 - takeProfit1Percent)
    else 0
  let takeProfit2 : ℚ :=
    if action = "BUY" then currentPrice * (1 + takeProfit2Percent)
    else if action = "SELL" then currentPrice * (1 - takeProfit2Percent)
    else 0
  { action := action, confidence := confidence, entryPrice := currentPrice,
    stopLoss := stopLoss, takeProfit1 := takeProfit1, takeProfit2 := takeProfit2 }

/-- Modelled from the spec sentence "Confidence = (sum of matched weights) ×
(winning-direction vote count / total votes cast)": the sum of the weights of
only the votes pointing in the winning direction.  This definition follows the
specification's words, for comparison against the code's `tallyConfidence`. -/
def specMatchedWeight (votes : List (Bool × ℚ)) : ℚ :=
  if buyCount votes > sellCount votes then
    ((votes.filter (fun v => v.1)).map Prod.snd).sum
  else if sellCount votes > buyCount votes then
    ((votes.filter (fun v => !v.1)).map Prod.snd).sum
  else 0

/-- Modelled from the spec: confidence as the matched-weight sum times the
winning-direction vote ratio. -/
def specConfidence (votes : List (Bool × ℚ)) : ℚ :=
  specMatchedWeight votes *
    ((max (buyCount votes) (sellCount votes) : ℚ) / (votes.length : ℚ))

/-! ## Signal generation (`GenerateSignal`, learning_engine.go lines 360-427)
The function's database write and logging are I/O performed by external
collaborators; the embedding captures the decision of whether a signal is
emitted (`some decision`) or suppressed (`none`). -/

/-- `hasReachedDailyLimit` (learning_engine.go lines 584-588).  The body is a
TODO stub: it returns `false` unconditionally instead of consulting the daily
signal counter. -/
def hasReachedDailyLimit : Bool := false

/-- `GenerateSignal`: reject when confidence is below the configured minimum,
then reject when `hasReachedDailyLimit` reports true, otherwise emit the
signal built from the decision. -/
def GenerateSignal (cfg : Config) (md : MarketData)
    (ind : TechnicalIndicators) : Option SignalDecision :=
  let decision := analyzeMarketConditions cfg md ind
  if decision.confidence < cfg.minConfidenceThreshold then none
  else if hasReachedDailyLimit then none
  else some decision

/-! ## Indicator engine (internal/services/technical_analyzer.go)
All functions work on price lists ordered oldest first, exactly like the Go
slices. -/

/-- Consecutive deltas `prices[i] - prices[i-1]`, i ranging over 1..len-1. -/
def priceChanges (prices : List ℚ) : List ℚ :=
  (prices.zip prices.tail).map (fun p => p.2 - p.1)

/-- Initial accumulation of `gains` and `losses` over a window of deltas
(calculateRSI, first loop): positive deltas add to gains, the rest add their
absolute value to losses. -/
def gainsLossesInit (cs : List ℚ) : ℚ × ℚ :=
  cs.foldl (fun gl c => if c > 0 then (gl.1 + c, gl.2) else (gl.1, gl.2 + |c|)) (0, 0)

/-- One step of Wilder smoothing (calculateRSI, second loop).  The Go code
forms `decimal.NewFromInt(int64(period-1))` from the int `period`, so the
factor is the integer `period - 1`, written here as `(period : ℚ) - 1`. -/
def wilderStep (period : ℕ) (a : ℚ × ℚ) (c : ℚ) : ℚ × ℚ :=
  if c > 0 then
    ((a.1 * ((period : ℚ) - 1) + c) / (period : ℚ),
      a.2 * ((period : ℚ) - 1) / (period : ℚ))
  else
    (a.1 * ((period : ℚ) - 1) / (period : ℚ),
      (a.2 * ((period : ℚ) - 1) + |c|) / (period : ℚ))

/-- The smoothed `(avgGain, avgLoss)` pair held by `calculateRSI` after both
loops. -/
def rsiAverages (prices : List ℚ) (period : ℕ) : ℚ × ℚ :=
  let cs := priceChanges prices
  let init := gainsLossesInit (cs.take period)
  (cs.drop period).foldl (wilderStep period)
    (init.1 / (period : ℚ), init.2 / (period : ℚ))

/-- `calculateRSI` (technical_analyzer.go lines 160-202): zero sentinel when
fewer than `period + 1` prices, 100 when the smoothed average loss is zero,
otherwise `100 - 100/(1 + avgGain/avgLoss)`. -/
def calculateRSI (prices : List ℚ) (period : ℕ) : ℚ :=
  if prices.length < period + 1 then 0
  else
    let a := rsiAverages prices period
    if a.2 = 0 then 100
    else 100 - 100 / (1 + a.1 / a.2)

/-- `calculateEMA` (lines 204-225): seed with the SMA of the first `period`
prices, then fold the remaining prices with multiplier `2/(period+1)`. -/
def calculateEMA (prices : List ℚ) (period : ℕ) : ℚ :=
  if prices.length < period then 0
  else
    let seed := (prices.take period).sum / (period : ℚ)
    let multiplier := 2 / ((period : ℚ) + 1)
    (prices.drop period).foldl (fun ema p => (p - ema) * multiplier + ema) seed

/-- `calculateSMA` (lines 227-240): mean of the last `period` prices. -/
def calculateSMA (prices : List ℚ) (period : ℕ) : ℚ :=
  if prices.length < period then 0
  else (prices.drop (prices.length - period)).sum / (period : ℚ)

/-- `calculateMACDHistory` (lines 242-261): the fast/slow EMA difference over
every prefix `prices[:i+1]` for `i` from `slowPeriod-1` (also at least
`fastPeriod-1`) to the end.  Only invoked with fast 12 / slow 26. -/
def calculateMACDHistory (prices : List ℚ) (fastPeriod slowPeriod : ℕ) : List ℚ :=
  if prices.length < slowPeriod then []
  else
    ((List.range prices.length).filter
        (fun i => decide (slowPeriod - 1 ≤ i ∧ fastPeriod - 1 ≤ i))).map
      (fun i =>
        calculateEMA (prices.take (i + 1)) fastPeriod -
          calculateEMA (prices.take (i + 1)) slowPeriod)

/-- `calculateStandardDeviation` (lines 263-281): population variance of the
last `period` prices around their SMA.  The Go code takes `math.Sqrt` of the
variance through a float64/string round-trip; that square root is kept
abstract as the parameter `sqrtA`. -/
def calculateStandardDeviation (sqrtA : ℚ → ℚ) (prices : List ℚ)
    (period : ℕ) : ℚ :=
  if prices.length < period then 0
  else
    let sma := calculateSMA prices period
    let sumSquaredDiffs :=
      ((prices.drop (prices.length - period)).map (fun p => (p - sma) * (p - sma))).sum
    sqrtA (sumSquaredDiffs / (period : ℚ))

/-- `findHighest` (lines 321-339): start from `prices[0]` and take the maximum
over the last `period` entries (the whole list when it is shorter). -/
def findHighest (prices : List ℚ) (period : ℕ) : ℚ :=
  match prices with
  | [] => 0
  | p :: rest => ((p :: rest).drop ((p :: rest).length - period)).foldl max p

/-- `findLowest` (lines 341-359): start from `prices[0]` and take the minimum
over the last `period` entries. -/
def findLowest (prices : List ℚ) (period : ℕ) : ℚ :=
  match prices with
  | [] => 0
  | p :: rest => ((p :: rest).drop ((p :: rest).length - period)).foldl min p

/-- `calculateStochastic` (lines 283-302): %K from the last `kPeriod` bars,
zero when the high/low range is degenerate; %D is the simplified same-value
fallback.  The Go slice expressions `highs[len(highs)-kPeriod:]` and
`lows[len(lows)-kPeriod:]` are the `List.drop` calls below. -/
def calculateStochastic (highs lows closes : List ℚ) (kPeriod dPeriod : ℕ) :
    ℚ × ℚ :=
  if closes.length < kPeriod then (0, 0)
  else
    let currentClose := closes.getD (closes.length - 1) 0
    let highestHigh := findHighest (highs.drop (highs.length - kPeriod)) kPeriod
    let lowestLow := findLowest (lows.drop (lows.length - kPeriod)) kPeriod
    let stochK :=
      if highestHigh = lowestLow then 0
      else (currentClose - lowestLow) / (highestHigh - lowestLow) * 100
    (stochK, stochK)

/-- `calculateWilliamsR` (lines 304-319): `(highestHigh - close) /
(highestHigh - lowestLow) × (-100)` over the last `period` bars, zero when the
range is degenerate. -/
def calculateWilliamsR (highs lows closes : List ℚ) (period : ℕ) : ℚ :=
  if closes.length < period then 0
  else
    let currentClose := closes.getD (closes.length - 1) 0
    let highestHigh := findHighest (highs.drop (highs.length - period)) period
    let lowestLow := findLowest (lows.drop (lows.length - period)) period
    if highestHigh = lowestLow then 0
    else (highestHigh - currentClose) / (highestHigh - lowestLow) * (-100)

/-! ## Kline parsing and `AnalyzeMarketData` -/

/-- One OHLCV bar (struct `OHLCV`).  The Go field `Open` is spelled
`openPrice` because `open` is a Lean keyword. -/
structure OHLCV where
  openPrice : ℚ
  high : ℚ
  low : ℚ
  close : ℚ
  volume : ℚ
  timestamp : ℤ

/-- Digits of a decimal string to a natural number. -/
def digitsToNat (cs : List Char) : ℕ :=
  cs.foldl (fun n c => 10 * n + (c.toNat - 48)) 0

/-- Model of `decimal.NewFromString` on plain decimal literals: optional sign,
integer digits, optional fractional digits.  (The library also accepts
exponent notation, which kline price strings do not use; no verified claim
depends on the parser accepting more strings.) -/
def decimalFromString? (s : String) : Option ℚ :=
  let cs := s.toList
  let signed : ℚ × List Char :=
    match cs with
    | [] => (1, [])
    | c :: rest => if c = '-' then (-1, rest) else if c = '+' then (1, rest) else (1, cs)
  let ip := signed.2.takeWhile (fun c => c != '.')
  let tl := signed.2.dropWhile (fun c => c != '.')
  match tl with
  | [] =>
    if ip ≠ [] ∧ ip.all Char.isDigit then some (signed.1 * digitsToNat ip) else none
  | _ :: frac =>
    if (ip ≠ [] ∨ frac ≠ []) ∧ ip.all Char.isDigit ∧ frac.all Char.isDigit ∧
        frac.all (fun c => c != '.') then
      some (signed.1 *
        ((digitsToNat ip : ℚ) + (digitsToNat frac : ℚ) / (10 : ℚ) ^ frac.length))
    else none

/-- Go `v, _ := decimal.NewFromString(s)`: the parsed value, or the zero
decimal when parsing fails (the error is discarded). -/
def decFromStringOrZero (s : String) : ℚ := (decimalFromString? s).getD 0

/-- One iteration of the `parseKlineData` loop: rows with fewer than six
entries are skipped, every value is extracted with error-ignoring assertions.
The float64-to-int64 timestamp conversion is modelled by the floor (timestamps
are nonnegative in practice, where the two agree). -/
def parseKlineRow (kline : List KValue) : Option OHLCV :=
  if kline.length < 6 then none
  else some
    { openPrice := decFromStringOrZero ((kline.getD 1 .kOther).asString)
      high := decFromStringOrZero ((kline.getD 2 .kOther).asString)
      low := decFromStringOrZero ((kline.getD 3 .kOther).asString)
      close := decFromStringOrZero ((kline.getD 4 .kOther).asString)
      volume := decFromStringOrZero ((kline.getD 5 .kOther).asString)
      timestamp := ⌊(kline.getD 0 .kOther).asFloat⌋ }

/-- `parseKlineData` (technical_analyzer.go lines 121-158).  It never returns
a non-nil error. -/
def parseKlineData (klineData : List (List KValue)) : List OHLCV :=
  klineData.filterMap parseKlineRow

/-- `AnalyzeMarketData` (technical_analyzer.go lines 56-119), returning the Go
result pair (indicator pointer, error).  When fewer than 26 bars parse, the
code executes `return nil, err` — but `err` is the nil error from
`parseKlineData`, so the returned pair is `(none, none)`. -/
def AnalyzeMarketData (sqrtA : ℚ → ℚ) (md : MarketData) :
    Option TechnicalIndicators × Option String :=
  let ohlcvData := parseKlineData md.klineData
  if ohlcvData.length < 26 then (none, none)
  else
    let closePrices := ohlcvData.map (fun b => b.close)
    let highPrices := ohlcvData.map (fun b => b.high)
    let lowPrices := ohlcvData.map (fun b => b.low)
    let ema12 := calculateEMA closePrices 12
    let ema26 := calculateEMA closePrices 26
    let macdLine := ema12 - ema26
    let macdValues := calculateMACDHistory closePrices 12 26
    let macdSignal := calculateEMA macdValues 9
    let sma20 := calculateSMA closePrices 20
    let stdDev := calculateStandardDeviation sqrtA closePrices 20
    let stoch := calculateStochastic highPrices lowPrices closePrices 14 3
    (some
      { rsi := calculateRSI closePrices 14
        macdLine := macdLine
        macdSignal := macdSignal
        macdHistogram := macdLine - macdSignal
        bbUpper := sma20 + stdDev * 2
        bbMiddle := sma20
        bbLower := sma20 - stdDev * 2
        sma20 := sma20
        ema12 := ema12
        ema26 := ema26
        volume := md.volume24h
        stochK := stoch.1
        stochD := stoch.2
        williams := calculateWilliamsR highPrices lowPrices closePrices 14
        currentPrice := md.price
        previousPrice :=
          if 1 < closePrices.length then closePrices.getD (closePrices.length - 2) 0
          else 0
        highestHigh := findHighest highPrices 20
        lowestLow := findLowest lowPrices 20 }, none)

/-- Outcome of one `analyzeCryptocurrency` call (coinmarketcap_service.go
lines 335-387) as observable behaviour: an early error return, a Go runtime
panic, or normal completion carrying the emitted signal (if any). -/
inductive AnalysisOutcome
  | errReturn : String → AnalysisOutcome
  | nilPointerPanic : AnalysisOutcome
  | completed : Option SignalDecision → AnalysisOutcome
deriving DecidableEq

/-- `analyzeCryptocurrency`: run the technical analysis and, when it yields an
indicator set, score and (possibly) emit a signal.  The code only early-returns
when `err != nil`; because `AnalyzeMarketData` answers `(nil, nil)` on an
insufficient window, execution then continues into
`learningEngine.ExtractFeatures(marketData, indicators)`, which dereferences
the nil `indicators` pointer — a Go runtime panic, modelled as
`nilPointerPanic`.  Database writes, notifications, and the learning side
channel are external I/O and not part of the decision. -/
def analyzeCryptocurrency (sqrtA : ℚ → ℚ) (cfg : Config) (md : MarketData) :
    AnalysisOutcome :=
  match AnalyzeMarketData sqrtA md with
  | (_, some e) => .errReturn e
  | (none, none) => .nilPointerPanic
  | (some indicators, none) => .completed (GenerateSignal cfg md indicators)

/-! ## Outcome predictor (`PredictSignalOutcome`, learning_engine.go lines
248-315) -/

/-- Feature vector (struct `FeatureVector` in learning_engine.go). -/
structure FeatureVector where
  rsi : ℚ := 0
  macdHistogram : ℚ := 0
  bbPosition : ℚ := 0
  fearGreedIndex : ℚ := 0
  priceChange24h : ℚ := 0
  volume24h : ℚ := 0
  priceAboveSMA20 : Bool := false
  emaCrossover : Bool := false
  rsiOversold : Bool := false
  rsiOverbought : Bool := false
  macdBullish : Bool := false
  bbSqueeze : Bool := false
  highVolume : Bool := false
  trendDirection : String := "neutral"
  marketSentiment : String := "neutral"

/-- The additive `bullishScore` tally of `PredictSignalOutcome`. -/
def bullishScore (f : FeatureVector) : ℕ :=
  (if f.rsiOversold then 2 else 0) + (if f.macdBullish then 2 else 0) +
    (if f.bbPosition < 1/5 then 1 else 0) +
    (if f.marketSentiment = "extreme_fear" then 2 else 0) +
    (if f.trendDirection = "bullish" then 1 else 0)

/-- The additive `bearishScore` tally of `PredictSignalOutcome`. -/
def bearishScore (f : FeatureVector) : ℕ :=
  (if f.rsiOverbought then 2 else 0) + (if !f.macdBullish then 1 else 0) +
    (if f.bbPosition > 4/5 then 1 else 0) +
    (if f.marketSentiment = "extreme_greed" then 2 else 0) +
    (if f.trendDirection = "bearish" then 1 else 0)

/-- Confidence increments added in the bullish-signals section of
`PredictSignalOutcome` (0.15, 0.12, 0.08, 0.10, 0.05). -/
def bullishConfidenceGain (f : FeatureVector) : ℚ :=
  (if f.rsiOversold then 3/20 else 0) + (if f.macdBullish then 3/25 else 0) +
    (if f.bbPosition < 1/5 then 2/25 else 0) +
    (if f.marketSentiment = "extreme_fear" then 1/10 else 0) +
    (if f.trendDirection = "bullish" then 1/20 else 0)

/-- Confidence increments added in the bearish-signals section of
`PredictSignalOutcome` (0.15, 0.08, 0.08, 0.10, 0.05). -/
def bearishConfidenceGain (f : FeatureVector) : ℚ :=
  (if f.rsiOverbought then 3/20 else 0) + (if !f.macdBullish then 2/25 else 0) +
    (if f.bbPosition > 4/5 then 2/25 else 0) +
    (if f.marketSentiment = "extreme_greed" then 1/10 else 0) +
    (if f.trendDirection = "bearish" then 1/20 else 0)

/-- The confidence accumulated by both scoring sections of
`PredictSignalOutcome` before the outcome branch (initial 0.5 plus the fixed
increments of every triggered feature). -/
def rawPredictConfidence (f : FeatureVector) : ℚ :=
  1/2 + bullishConfidenceGain f + bearishConfidenceGain f

/-- `PredictSignalOutcome`: "profit" when one score strictly exceeds the other
and reaches 3, otherwise "loss" with the confidence halved; finally the
confidence is capped at 1. -/
def PredictSignalOutcome (f : FeatureVector) : String × ℚ :=
  let confidence := rawPredictConfidence f
  let p : String × ℚ :=
    if bullishScore f > bearishScore f ∧ bullishScore f ≥ 3 then ("profit", confidence)
    else if bearishScore f > bullishScore f ∧ bearishScore f ≥ 3 then ("profit", confidence)
    else ("loss", confidence * (1/2))
  (p.1, if p.2 > 1 then 1 else p.2)

/-! ## Concrete inputs used by witnesses and counterexamples -/

/-- Default configuration (config.Load in helpers.go), with the minimum
confidence threshold lowered — it is a free runtime configuration value — so
that a 0.5-confidence decision meets it. -/
def cfgX : Config := { minConfidenceThreshold := 3/10 }

/-- Market snapshot with price 100 and a neutral sentiment index. -/
def mdX : MarketData := { price := 100, fearGreedIndex := 50 }

/-- Indicators making the RSI and MACD groups vote BUY and the Bollinger group
vote SELL, with the sentiment and price-action groups silent. -/
def indX : TechnicalIndicators :=
  { rsi := 20, macdLine := 2, macdSignal := 1, macdHistogram := 1,
    bbUpper := 90, bbMiddle := 85, bbLower := 80,
    sma20 := 95, ema12 := 1, ema26 := 2 }

/-- Indicators on which no rule group casts any vote. -/
def indN : TechnicalIndicators :=
  { rsi := 50, macdLine := 0, macdSignal := 0, macdHistogram := 0,
    bbUpper := 110, bbMiddle := 100, bbLower := 90,
    sma20 := 100, ema12 := 1, ema26 := 2 }

/-- Market data whose kline payload is empty: it parses to zero OHLCV bars. -/
def mdEmptyKline : MarketData := { price := 100, fearGreedIndex := 50, klineData := [] }

/-- Feature vector on which the bullish and the bearish additive scores are
both exactly 3. -/
def fvMixed : FeatureVector :=
  { rsiOversold := true, macdBullish := false, bbPosition := 1/10,
    marketSentiment := "extreme_greed", trendDirection := "neutral" }

/-- Highs of a 14-bar window whose last close lies above every high. -/
def highsX : List ℚ := [1, 1, 1, 1, 1, 1, 1, 1, 1, 1, 1, 1, 1, 1]

/-- Lows of that window. -/
def lowsX : List ℚ := [0, 0, 0, 0, 0, 0, 0, 0, 0, 0, 0, 0, 0, 0]

/-- Closes of that window: the final close 2 exceeds the highest high 1. -/
def closesX : List ℚ := [0, 0, 0, 0, 0, 0, 0, 0, 0, 0, 0, 0, 0, 2]

/-! ## Projection lemmas for `analyzeMarketConditions` -/

theorem analyze_action_eq (cfg : Config) (md : MarketData) (ind : TechnicalIndicators) :
    (analyzeMarketConditions cfg md ind).action = tallyAction (ruleVotes cfg md ind) := rfl

theorem analyze_confidence_eq (cfg : Config) (md : MarketData) (ind : TechnicalIndicators) :
    (analyzeMarketConditions cfg md ind).confidence = tallyConfidence (ruleVotes cfg md ind) := rfl

theorem analyze_entry_eq (cfg : Config) (md : MarketData) (ind : TechnicalIndicators) :
    (analyzeMarketConditions cfg md ind).entryPrice = md.price := rfl

theorem analyze_stopLoss_eq (cfg : Config) (md : MarketData) (ind : TechnicalIndicators) :
    (analyzeMarketConditions cfg md ind).stopLoss =
      (if tallyAction (ruleVotes cfg md ind) = "BUY" then
        md.price * (1 - cfg.stopLossPercentage / 100)
      else if tallyAction (ruleVotes cfg md ind) = "SELL" then
        md.price * (1 + cfg.stopLossPercentage / 100)
      else 0) := rfl

theorem analyze_tp1_eq (cfg : Config) (md : MarketData) (ind : TechnicalIndicators) :
    (analyzeMarketConditions cfg md ind).takeProfit1 =
      (if tallyAction (ruleVotes cfg md ind) = "BUY" then
        md.price * (1 + cfg.takeProfit1Percentage / 100)
      else if tallyAction (ruleVotes cfg md ind) = "SELL" then
        md.price * (1 - cfg.takeProfit1Percentage / 100)
      else 0) := rfl

theorem analyze_tp2_eq (cfg : Config) (md : MarketData) (ind : TechnicalIndicators) :
    (analyzeMarketConditions cfg md ind).takeProfit2 =
      (if tallyAction (ruleVotes cfg md ind) = "BUY" then
        md.price * (1 + cfg.takeProfit2Percentage / 100)
      else if tallyAction (ruleVotes cfg md ind) = "SELL" then
        md.price * (1 - cfg.takeProfit2Percentage / 100)
      else 0) := rfl

/-! ## Evaluations of the concrete example inputs -/

theorem ruleVotes_X : ruleVotes cfgX mdX indX = [(true, 3/10), (true, 1/4), (false, 1/5)] := by
  norm_num [ruleVotes, comboVotes, rsiVote, macdVote, bbVote, fearGreedVote,
    priceActionVote, groupVote, cfgX, mdX, indX]

theorem ruleVotes_N : ruleVotes cfgX mdX indN = [] := by
  norm_num [ruleVotes, comboVotes, rsiVote, macdVote, bbVote, fearGreedVote,
    priceActionVote, groupVote, cfgX, mdX, indN]

theorem confidence_X : (analyzeMarketConditions cfgX mdX indX).confidence = 1/2 := by
  rw [analyze_confidence_eq, ruleVotes_X]
  norm_num [tallyConfidence, buyCount, sellCount, weightSum, List.countP_cons]

/-! ## Bounds on the vote tally -/

theorem weightSum_append (a b : List (Bool × ℚ)) :
    weightSum (a ++ b) = weightSum a + weightSum b := by
  simp [weightSum]

theorem weightSum_groupVote (v : Option Bool) (w : ℚ) (hw : 0 ≤ w) :
    0 ≤ weightSum (groupVote v w) ∧ weightSum (groupVote v w) ≤ w := by
  cases v <;> simp [groupVote, weightSum] <;> exact hw

theorem weightSum_comboVotes (v1 v2 v3 v4 v5 : Option Bool) :
    0 ≤ weightSum (comboVotes v1 v2 v3 v4 v5) ∧
      weightSum (comboVotes v1 v2 v3 v4 v5) ≤ 1 := by
  have h1 := weightSum_groupVote v1 (3/10) (by norm_num)
  have h2 := weightSum_groupVote v2 (1/4) (by norm_num)
  have h3 := weightSum_groupVote v3 (1/5) (by norm_num)
  have h4 := weightSum_groupVote v4 (3/20) (by norm_num)
  have h5 := weightSum_groupVote v5 (1/10) (by norm_num)
  unfold comboVotes
  rw [weightSum_append, weightSum_append, weightSum_append, weightSum_append]
  constructor <;> linarith [h1.1, h1.2, h2.1, h2.2, h3.1, h3.2, h4.1, h4.2, h5.1, h5.2]

theorem tallyConfidence_bounds (votes : List (Bool × ℚ))
    (h0 : 0 ≤ weightSum votes) (h1 : weightSum votes ≤ 1) :
    0 ≤ tallyConfidence votes ∧ tallyConfidence votes ≤ 1 := by
  unfold tallyConfidence
  split_ifs with hb hs
  · have hlen : buyCount votes ≤ votes.length := List.countP_le_length _
    have hpos : 0 < votes.length := by omega
    have hq : (0:ℚ) < (votes.length : ℚ) := by exact_mod_cast hpos
    have hr0 : (0:ℚ) ≤ (buyCount votes : ℚ) / (votes.length : ℚ) := by positivity
    have hr1 : (buyCount votes : ℚ) / (votes.length : ℚ) ≤ 1 := by
      rw [div_le_one hq]; exact_mod_cast hlen
    exact ⟨mul_nonneg h0 hr0, by nlinarith⟩
  · have hlen : sellCount votes ≤ votes.length := List.countP_le_length _
    have hpos : 0 < votes.length := by omega
    have hq : (0:ℚ) < (votes.length : ℚ) := by exact_mod_cast hpos
    have hr0 : (0:ℚ) ≤ (sellCount votes : ℚ) / (votes.length : ℚ) := by positivity
    have hr1 : (sellCount votes : ℚ) / (votes.length : ℚ) ≤ 1 := by
      rw [div_le_one hq]; exact_mod_cast hlen
    exact ⟨mul_nonneg h0 hr0, by nlinarith⟩
  · norm_num

/-! ## Claim C1 -/

/-- C1 (counterexample): the claimed confidence formula — matched-direction
weight sum times the winning vote ratio — disagrees with the code on an input
with two BUY votes (weights 0.30, 0.25) and one SELL vote (weight 0.20): the
code returns 0.75 × 2/3 = 0.5, the claimed formula gives 0.55 × 2/3 = 11/30. -/
theorem confidence_uses_total_weight_not_matched :
    buyCount (ruleVotes cfgX mdX indX) > sellCount (ruleVotes cfgX mdX indX) ∧
      (analyzeMarketConditions cfgX mdX indX).confidence ≠
        specConfidence (ruleVotes cfgX mdX indX) := by
  constructor
  · rw [ruleVotes_X]; norm_num [buyCount, sellCount, List.countP_cons]
  · rw [confidence_X, ruleVotes_X]
    norm_num [specConfidence, specMatchedWeight, buyCount, sellCount, weightSum,
      List.countP_cons]

/-- C1 (amended): whenever the BUY and SELL vote counts differ (so at least
one vote was cast), `analyzeMarketConditions` returns confidence equal to the
sum of the weights of ALL cast votes multiplied by the winning-direction vote
count divided by the total vote count. -/
theorem confidence_eq_total_weight_mul_winning_ratio (cfg : Config)
    (md : MarketData) (ind : TechnicalIndicators)
    (h : buyCount (ruleVotes cfg md ind) ≠ sellCount (ruleVotes cfg md ind)) :
    (analyzeMarketConditions cfg md ind).confidence =
      weightSum (ruleVotes cfg md ind) *
        (((max (buyCount (ruleVotes cfg md ind)) (sellCount (ruleVotes cfg md ind)) : ℕ) : ℚ) /
          ((ruleVotes cfg md ind).length : ℚ)) := by
  rw [analyze_confidence_eq]
  unfold tallyConfidence
  rcases lt_trichotomy (buyCount (ruleVotes cfg md ind)) (sellCount (ruleVotes cfg md ind))
    with hlt | heq | hgt
  · rw [if_neg (by omega), if_pos hlt, Nat.max_eq_right (le_of_lt hlt)]
  · exact absurd heq h
  · rw [if_pos hgt, Nat.max_eq_left (le_of_lt hgt)]

/-- C1 (witness): the amended formula evaluated on the 2-BUY/1-SELL input. -/
theorem confidence_eq_total_weight_mul_winning_ratio_witness :
    buyCount (ruleVotes cfgX mdX indX) ≠ sellCount (ruleVotes cfgX mdX indX) ∧
      (analyzeMarketConditions cfgX mdX indX).confidence =
        weightSum (ruleVotes cfgX mdX indX) *
          (((max (buyCount (ruleVotes cfgX mdX indX)) (sellCount (ruleVotes cfgX mdX indX)) : ℕ) : ℚ) /
            ((ruleVotes cfgX mdX indX).length : ℚ)) :=
  ⟨by rw [ruleVotes_X]; norm_num [buyCount, sellCount, List.countP_cons],
    confidence_eq_total_weight_mul_winning_ratio cfgX mdX indX
      (by rw [ruleVotes_X]; norm_num [buyCount, sellCount, List.countP_cons])⟩

/-! ## Claim C3 -/

/-- C3: for every combination of the five rule groups' optional directional
votes with their fixed weights 0.30, 0.25, 0.20, 0.15, 0.10 — including the
empty combination — the tallied confidence lies in [0, 1]; consequently the
confidence returned by `analyzeMarketConditions` lies in [0, 1] on every
input. -/
theorem confidence_always_within_unit_interval :
    (∀ v1 v2 v3 v4 v5 : Option Bool,
      0 ≤ tallyConfidence (comboVotes v1 v2 v3 v4 v5) ∧
        tallyConfidence (comboVotes v1 v2 v3 v4 v5) ≤ 1) ∧
    ∀ cfg md ind, 0 ≤ (analyzeMarketConditions cfg md ind).confidence ∧
      (analyzeMarketConditions cfg md ind).confidence ≤ 1 := by
  constructor
  · intro v1 v2 v3 v4 v5
    exact tallyConfidence_bounds _ (weightSum_comboVotes v1 v2 v3 v4 v5).1
      (weightSum_comboVotes v1 v2 v3 v4 v5).2
  · intro cfg md ind
    rw [analyze_confidence_eq]
    exact tallyConfidence_bounds _
      (weightSum_comboVotes (rsiVote cfg ind) (macdVote ind) (bbVote md ind)
        (fearGreedVote cfg md) (priceActionVote md ind)).1
      (weightSum_comboVotes (rsiVote cfg ind) (macdVote ind) (bbVote md ind)
        (fearGreedVote cfg md) (priceActionVote md ind)).2

/-! ## Claim C4 -/

/-- C4: whenever the BUY and SELL vote counts are equal — in particular when
no rule group votes at all — `analyzeMarketConditions` returns action "HOLD"
with confidence exactly 0.1, independently of the vote weights; the tie branch
never divides by the (possibly zero) total vote count. -/
theorem tied_votes_yield_hold_baseline (cfg : Config) (md : MarketData)
    (ind : TechnicalIndicators)
    (h : buyCount (ruleVotes cfg md ind) = sellCount (ruleVotes cfg md ind)) :
    (analyzeMarketConditions cfg md ind).action = "HOLD" ∧
      (analyzeMarketConditions cfg md ind).confidence = 1/10 := by
  rw [analyze_action_eq, analyze_confidence_eq]
  unfold tallyAction tallyConfidence
  rw [h]
  simp

/-- C4 (witness): on the all-neutral input no votes are cast, and the decision
is HOLD with confidence 0.1. -/
theorem tied_votes_yield_hold_baseline_witness :
    buyCount (ruleVotes cfgX mdX indN) = sellCount (ruleVotes cfgX mdX indN) ∧
      (analyzeMarketConditions cfgX mdX indN).action = "HOLD" ∧
        (analyzeMarketConditions cfgX mdX indN).confidence = 1/10 :=
  ⟨by rw [ruleVotes_N]; rfl,
    tied_votes_yield_hold_baseline cfgX mdX indN (by rw [ruleVotes_N]; rfl)⟩

/-! ## Claim C10 -/

/-- C10: a HOLD decision leaves stopLoss, takeProfit1 and takeProfit2 at their
zero initial values while entryPrice is still the current market price. -/
theorem hold_decision_keeps_zero_targets (cfg : Config) (md : MarketData)
    (ind : TechnicalIndicators)
    (h : (analyzeMarketConditions cfg md ind).action = "HOLD") :
    (analyzeMarketConditions cfg md ind).stopLoss = 0 ∧
      (analyzeMarketConditions cfg md ind).takeProfit1 = 0 ∧
        (analyzeMarketConditions cfg md ind).takeProfit2 = 0 ∧
          (analyzeMarketConditions cfg md ind).entryPrice = md.price := by
  rw [analyze_action_eq] at h
  rw [analyze_stopLoss_eq, analyze_tp1_eq, analyze_tp2_eq, analyze_entry_eq, h]
  simp

/-- C10 (witness): the all-neutral input yields a HOLD decision with zero
price targets and entry price 100. -/
theorem hold_decision_keeps_zero_targets_witness :
    (analyzeMarketConditions cfgX mdX indN).action = "HOLD" ∧
      (analyzeMarketConditions cfgX mdX indN).stopLoss = 0 ∧
        (analyzeMarketConditions cfgX mdX indN).takeProfit1 = 0 ∧
          (analyzeMarketConditions cfgX mdX indN).takeProfit2 = 0 ∧
            (analyzeMarketConditions cfgX mdX indN).entryPrice = mdX.price :=
  have h : (analyzeMarketConditions cfgX mdX indN).action = "HOLD" := by
    rw [analyze_action_eq, ruleVotes_N]; rfl
  ⟨h, hold_decision_keeps_zero_targets cfgX mdX indN h⟩

/-! ## Claim C2 -/

/-- C2: under positive entry price, positive stop-loss percentage, and
0 < takeProfit1 % < takeProfit2 %, a BUY decision satisfies
stopLoss < entryPrice < takeProfit1 < takeProfit2 and a SELL decision the
mirrored chain takeProfit2 < takeProfit1 < entryPrice < stopLoss. -/
theorem buy_sell_price_target_ordering (cfg : Config) (md : MarketData)
    (ind : TechnicalIndicators) (hp : 0 < md.price)
    (hsl : 0 < cfg.stopLossPercentage) (htp1 : 0 < cfg.takeProfit1Percentage)
    (htp12 : cfg.takeProfit1Percentage < cfg.takeProfit2Percentage) :
    ((analyzeMarketConditions cfg md ind).action = "BUY" →
      (analyzeMarketConditions cfg md ind).stopLoss <
          (analyzeMarketConditions cfg md ind).entryPrice ∧
        (analyzeMarketConditions cfg md ind).entryPrice <
          (analyzeMarketConditions cfg md ind).takeProfit1 ∧
        (analyzeMarketConditions cfg md ind).takeProfit1 <
          (analyzeMarketConditions cfg md ind).takeProfit2) ∧
    ((analyzeMarketConditions cfg md ind).action = "SELL" →
      (analyzeMarketConditions cfg md ind).takeProfit2 <
          (analyzeMarketConditions cfg md ind).takeProfit1 ∧
        (analyzeMarketConditions cfg md ind).takeProfit1 <
          (analyzeMarketConditions cfg md ind).entryPrice ∧
        (analyzeMarketConditions cfg md ind).entryPrice <
          (analyzeMarketConditions cfg md ind).stopLoss) := by
  constructor
  · intro ha
    rw [analyze_action_eq] at ha
    rw [analyze_stopLoss_eq, analyze_tp1_eq, analyze_tp2_eq, analyze_entry_eq, ha]
    simp only [if_pos]
    refine ⟨by nlinarith, by nlinarith, by nlinarith⟩
  · intro ha
    rw [analyze_action_eq] at ha
    rw [analyze_stopLoss_eq, analyze_tp1_eq, analyze_tp2_eq, analyze_entry_eq, ha]
    simp
    refine ⟨by nlinarith, by nlinarith, by nlinarith⟩

/-- C2 (witness): the hypotheses hold for the default-percentage configuration
at price 100, and the 2-BUY/1-SELL input indeed yields a BUY decision with
95 < 100 < 103 < 106. -/
theorem buy_sell_price_target_ordering_witness :
    (0 < mdX.price ∧ 0 < cfgX.stopLossPercentage ∧
      0 < cfgX.takeProfit1Percentage ∧
      cfgX.takeProfit1Percentage < cfgX.takeProfit2Percentage) ∧
    (((analyzeMarketConditions cfgX mdX indX).action = "BUY" →
      (analyzeMarketConditions cfgX mdX indX).stopLoss <
          (analyzeMarketConditions cfgX mdX indX).entryPrice ∧
        (analyzeMarketConditions cfgX mdX indX).entryPrice <
          (analyzeMarketConditions cfgX mdX indX).takeProfit1 ∧
        (analyzeMarketConditions cfgX mdX indX).takeProfit1 <
          (analyzeMarketConditions cfgX mdX indX).takeProfit2) ∧
    ((analyzeMarketConditions cfgX mdX indX).action = "SELL" →
      (analyzeMarketConditions cfgX mdX indX).takeProfit2 <
          (analyzeMarketConditions cfgX mdX indX).takeProfit1 ∧
        (analyzeMarketConditions cfgX mdX indX).takeProfit1 <
          (analyzeMarketConditions cfgX mdX indX).entryPrice ∧
        (analyzeMarketConditions cfgX mdX indX).entryPrice <
          (analyzeMarketConditions cfgX mdX indX).stopLoss)) :=
  ⟨⟨by norm_num [mdX], by norm_num [cfgX], by norm_num [cfgX], by norm_num [cfgX]⟩,
    buy_sell_price_target_ordering cfgX mdX indX (by norm_num [mdX])
      (by norm_num [cfgX]) (by norm_num [cfgX]) (by norm_num [cfgX])⟩

/-! ## Claim C5 (code bug) -/

/-- C5 (code bug): on market data whose kline payload parses to fewer than 26
bars, `AnalyzeMarketData` executes `return nil, err` with `err` still nil, so
the caller's `if err != nil` guard does not fire and `analyzeCryptocurrency`
dereferences the nil indicator pointer in `ExtractFeatures` — a runtime panic
instead of the claimed graceful no-decision refusal. -/
theorem insufficient_bars_cause_nil_indicator_panic :
    AnalyzeMarketData (fun q => q) mdEmptyKline = (none, none) ∧
      analyzeCryptocurrency (fun q => q) cfgX mdEmptyKline =
        AnalysisOutcome.nilPointerPanic :=
  ⟨rfl, rfl⟩

/-! ## Claim C6 (code bug) -/

/-- C6 (code bug): `hasReachedDailyLimit` is a TODO stub that returns `false`
unconditionally, so the daily-quota refusal inside `GenerateSignal` can never
fire: on an above-threshold input a signal is emitted regardless of how many
signals were already generated today. -/
theorem daily_limit_check_is_inoperative_stub :
    hasReachedDailyLimit = false ∧
      (GenerateSignal cfgX mdX indX).isSome = true := by
  refine ⟨rfl, ?_⟩
  have h : (GenerateSignal cfgX mdX indX) = some (analyzeMarketConditions cfgX mdX indX) := by
    unfold GenerateSignal
    rw [if_neg, if_neg]
    · simp [hasReachedDailyLimit]
    · rw [confidence_X]; norm_num [cfgX]
  rw [h]; rfl

/-! ## Claim C8 -/

/-- C8: on any price list strictly shorter than the requested period, SMA,
EMA, RSI and the Bollinger standard deviation all return the zero
"unavailable" sentinel (they are total functions: no exception, no undefined
value). -/
theorem short_window_returns_zero_sentinel (sqrtA : ℚ → ℚ) (prices : List ℚ)
    (period : ℕ) (h : prices.length < period) :
    calculateSMA prices period = 0 ∧ calculateEMA prices period = 0 ∧
      calculateRSI prices period = 0 ∧
      calculateStandardDeviation sqrtA prices period = 0 := by
  refine ⟨?_, ?_, ?_, ?_⟩
  · simp only [calculateSMA]; rw [if_pos h]
  · simp only [calculateEMA]; rw [if_pos h]
  · simp only [calculateRSI]; rw [if_pos (by omega)]
  · simp only [calculateStandardDeviation]; rw [if_pos h]

/-- C8 (witness): the two-price list is too short for period 3 and every
function returns the zero sentinel. -/
theorem short_window_returns_zero_sentinel_witness :
    ([(1:ℚ), 2]).length < 3 ∧ calculateSMA [(1:ℚ), 2] 3 = 0 ∧
      calculateEMA [(1:ℚ), 2] 3 = 0 ∧ calculateRSI [(1:ℚ), 2] 3 = 0 ∧
      calculateStandardDeviation (fun q => q) [(1:ℚ), 2] 3 = 0 :=
  ⟨by norm_num,
    short_window_returns_zero_sentinel (fun q => q) [(1:ℚ), 2] 3 (by norm_num)⟩

/-! ## Claim C9 -/

theorem bullishConfidenceGain_bounds (f : FeatureVector) :
    0 ≤ bullishConfidenceGain f ∧ bullishConfidenceGain f ≤ 1/2 := by
  unfold bullishConfidenceGain
  constructor <;> split_ifs <;> norm_num

theorem bearishConfidenceGain_bounds (f : FeatureVector) :
    0 ≤ bearishConfidenceGain f ∧ bearishConfidenceGain f ≤ 23/50 := by
  unfold bearishConfidenceGain
  constructor <;> split_ifs <;> norm_num

theorem rawPredictConfidence_le (f : FeatureVector) :
    rawPredictConfidence f ≤ 73/50 := by
  have h1 := bullishConfidenceGain_bounds f
  have h2 := bearishConfidenceGain_bounds f
  unfold rawPredictConfidence
  linarith

/-- C9 (counterexample): on a feature vector where both additive scores reach
exactly 3 (oversold +2 and low band position +1 bullish; non-bullish MACD +1
and extreme greed +2 bearish), `PredictSignalOutcome` returns "loss", whereas
the claim — profit exactly when either score reaches 3 — demands "profit". -/
theorem equal_scores_predict_loss :
    bullishScore fvMixed = 3 ∧ bearishScore fvMixed = 3 ∧
      (PredictSignalOutcome fvMixed).1 = "loss" := by
  refine ⟨by simp only [bullishScore, fvMixed, String.reduceEq]; norm_num,
    by simp only [bearishScore, fvMixed, String.reduceEq]; norm_num, ?_⟩
  simp only [PredictSignalOutcome, bullishScore, bearishScore, fvMixed, String.reduceEq]
  norm_num

/-- C9 (amended): `PredictSignalOutcome` returns "profit" exactly when the
strictly larger of the bullish and bearish additive scores reaches the minimum
tally of 3; otherwise it returns "loss" with the accumulated confidence
multiplied by 0.5; and the returned confidence never exceeds 1. -/
theorem predict_outcome_characterization (f : FeatureVector) :
    ((PredictSignalOutcome f).1 = "profit" ↔
      (bullishScore f > bearishScore f ∧ bullishScore f ≥ 3) ∨
        (bearishScore f > bullishScore f ∧ bearishScore f ≥ 3)) ∧
    (¬((bullishScore f > bearishScore f ∧ bullishScore f ≥ 3) ∨
        (bearishScore f > bullishScore f ∧ bearishScore f ≥ 3)) →
      (PredictSignalOutcome f).1 = "loss" ∧
        (PredictSignalOutcome f).2 = rawPredictConfidence f * (1/2)) ∧
    (PredictSignalOutcome f).2 ≤ 1 := by
  have hle := rawPredictConfidence_le f
  simp only [PredictSignalOutcome]
  split_ifs with h1 h2 h3 h4 h5
  · exact ⟨by simp [h1], fun hn => absurd (Or.inl h1) hn, by norm_num⟩
  · exact ⟨by simp [h1], fun hn => absurd (Or.inl h1) hn, by simp at h2; linarith⟩
  · exact ⟨by simp [h3], fun hn => absurd (Or.inr h3) hn, by norm_num⟩
  · exact ⟨by simp [h3], fun hn => absurd (Or.inr h3) hn, by simp at h4; linarith⟩
  · exact absurd h5 (by linarith)
  · refine ⟨?_, fun hn => ⟨rfl, rfl⟩, by linarith⟩
    simp only [show ¬(("loss" : String) = "profit") from by decide, false_iff]
    rintro (hc | hc)
    · exact h1 hc
    · exact h3 hc

/-- C9 (witness): the amended characterization applied to the tied-score
feature vector: the outcome is "loss" with the accumulated confidence
halved. -/
theorem predict_outcome_characterization_witness :
    (PredictSignalOutcome fvMixed).1 = "loss" ∧
      (PredictSignalOutcome fvMixed).2 = rawPredictConfidence fvMixed * (1/2) :=
  (predict_outcome_characterization fvMixed).2.1
    (by simp only [bullishScore, bearishScore, fvMixed, String.reduceEq]; norm_num)

/-! ## Claim C7: range bounds for the oscillators -/

theorem gainsLosses_fold_nonneg (cs : List ℚ) (a : ℚ × ℚ)
    (h1 : 0 ≤ a.1) (h2 : 0 ≤ a.2) :
    0 ≤ (cs.foldl (fun gl c => if c > 0 then (gl.1 + c, gl.2) else (gl.1, gl.2 + |c|)) a).1 ∧
      0 ≤ (cs.foldl (fun gl c => if c > 0 then (gl.1 + c, gl.2) else (gl.1, gl.2 + |c|)) a).2 := by
  induction cs generalizing a with
  | nil => exact ⟨h1, h2⟩
  | cons c t ih =>
    simp only [List.foldl_cons]
    refine ih _ ?_ ?_ <;> by_cases hc : c > 0
    · rw [if_pos hc]; dsimp; linarith
    · rw [if_neg hc]; dsimp; exact h1
    · rw [if_pos hc]; dsimp; exact h2
    · rw [if_neg hc]; dsimp; exact add_nonneg h2 (abs_nonneg c)

theorem gainsLossesInit_nonneg (cs : List ℚ) :
    0 ≤ (gainsLossesInit cs).1 ∧ 0 ≤ (gainsLossesInit cs).2 := by
  unfold gainsLossesInit
  exact gainsLosses_fold_nonneg cs (0, 0) le_rfl le_rfl

theorem wilderFold_nonneg (period : ℕ) (hp : 1 ≤ period) (cs : List ℚ)
    (a : ℚ × ℚ) (h1 : 0 ≤ a.1) (h2 : 0 ≤ a.2) :
    0 ≤ (cs.foldl (wilderStep period) a).1 ∧
      0 ≤ (cs.foldl (wilderStep period) a).2 := by
  induction cs generalizing a with
  | nil => exact ⟨h1, h2⟩
  | cons c t ih =>
    simp only [List.foldl_cons]
    have hpq : (1:ℚ) ≤ (period : ℚ) := by exact_mod_cast hp
    have hfac : (0:ℚ) ≤ (period : ℚ) - 1 := by linarith
    refine ih _ ?_ ?_ <;> unfold wilderStep <;> by_cases hc : c > 0
    · rw [if_pos hc]; dsimp
      exact div_nonneg (by nlinarith [mul_nonneg h1 hfac]) (by linarith)
    · rw [if_neg hc]; dsimp
      exact div_nonneg (mul_nonneg h1 hfac) (by linarith)
    · rw [if_pos hc]; dsimp
      exact div_nonneg (mul_nonneg h2 hfac) (by linarith)
    · rw [if_neg hc]; dsimp
      exact div_nonneg (by nlinarith [mul_nonneg h2 hfac, abs_nonneg c]) (by linarith)

theorem rsiAverages_nonneg (prices : List ℚ) (period : ℕ) (hp : 1 ≤ period) :
    0 ≤ (rsiAverages prices period).1 ∧ 0 ≤ (rsiAverages prices period).2 := by
  have hinit := gainsLossesInit_nonneg ((priceChanges prices).take period)
  simp only [rsiAverages]
  exact wilderFold_nonneg period hp _ _
    (div_nonneg hinit.1 (by positivity)) (div_nonneg hinit.2 (by positivity))

theorem calculateRSI_bounds (prices : List ℚ) (period : ℕ) (hp : 1 ≤ period) :
    0 ≤ calculateRSI prices period ∧ calculateRSI prices period ≤ 100 := by
  simp only [calculateRSI]
  split_ifs with h1 h2
  · norm_num
  · norm_num
  · have hnn := rsiAverages_nonneg prices period hp
    have hal : 0 < (rsiAverages prices period).2 := lt_of_le_of_ne hnn.2 (Ne.symm h2)
    have hrs : 0 ≤ (rsiAverages prices period).1 / (rsiAverages prices period).2 :=
      div_nonneg hnn.1 hal.le
    have hden : (0:ℚ) < 1 + (rsiAverages prices period).1 / (rsiAverages prices period).2 := by
      linarith
    have hq1 : 0 < 100 / (1 + (rsiAverages prices period).1 / (rsiAverages prices period).2) := by
      positivity
    have hq2 : 100 / (1 + (rsiAverages prices period).1 / (rsiAverages prices period).2) ≤ 100 := by
      rw [div_le_iff₀ hden]; nlinarith
    constructor <;> linarith

theorem calculateRSI_avgLoss_zero (prices : List ℚ) (period : ℕ)
    (hlen : period + 1 ≤ prices.length) (hz : (rsiAverages prices period).2 = 0) :
    calculateRSI prices period = 100 := by
  simp only [calculateRSI]
  rw [if_neg (by omega), if_pos hz]

theorem init_le_foldl_max (l : List ℚ) (a : ℚ) : a ≤ l.foldl max a := by
  induction l generalizing a with
  | nil => exact le_rfl
  | cons b t ih =>
    simp only [List.foldl_cons]
    exact le_trans (le_max_left a b) (ih (max a b))

theorem mem_le_foldl_max (l : List ℚ) (a x : ℚ) (hx : x ∈ l) : x ≤ l.foldl max a := by
  induction l generalizing a with
  | nil => cases hx
  | cons b t ih =>
    simp only [List.foldl_cons]
    rcases List.mem_cons.mp hx with rfl | h
    · exact le_trans (le_max_right a x) (init_le_foldl_max t (max a x))
    · exact ih (max a b) h

theorem foldl_min_le_init (l : List ℚ) (a : ℚ) : l.foldl min a ≤ a := by
  induction l generalizing a with
  | nil => exact le_rfl
  | cons b t ih =>
    simp only [List.foldl_cons]
    exact le_trans (ih (min a b)) (min_le_left a b)

theorem foldl_min_le_mem (l : List ℚ) (a x : ℚ) (hx : x ∈ l) : l.foldl min a ≤ x := by
  induction l generalizing a with
  | nil => cases hx
  | cons b t ih =>
    simp only [List.foldl_cons]
    rcases List.mem_cons.mp hx with rfl | h
    · exact le_trans (foldl_min_le_init t (min a x)) (min_le_right a x)
    · exact ih (min a b) h

theorem le_findHighest_of_mem (l : List ℚ) (period : ℕ) (x : ℚ) (hx : x ∈ l)
    (hlen : l.length ≤ period) : x ≤ findHighest l period := by
  cases l with
  | nil => cases hx
  | cons p rest =>
    rw [show findHighest (p :: rest) period =
      ((p :: rest).drop ((p :: rest).length - period)).foldl max p from rfl]
    rw [Nat.sub_eq_zero_of_le hlen, List.drop_zero]
    exact mem_le_foldl_max _ _ _ hx

theorem findLowest_le_of_mem (l : List ℚ) (period : ℕ) (x : ℚ) (hx : x ∈ l)
    (hlen : l.length ≤ period) : findLowest l period ≤ x := by
  cases l with
  | nil => cases hx
  | cons p rest =>
    rw [show findLowest (p :: rest) period =
      ((p :: rest).drop ((p :: rest).length - period)).foldl min p from rfl]
    rw [Nat.sub_eq_zero_of_le hlen, List.drop_zero]
    exact foldl_min_le_mem _ _ _ hx

theorem last_mem_drop (l : List ℚ) (k : ℕ) (hk : 1 ≤ k) (hl : k ≤ l.length) :
    l.getD (l.length - 1) 0 ∈ l.drop (l.length - k) := by
  have h1 : l.length - 1 < l.length := by omega
  rw [List.getD_eq_getElem l 0 h1]
  have h2 : k - 1 < (l.drop (l.length - k)).length := by
    rw [List.length_drop]; omega
  have h3 : (l.drop (l.length - k)).get ⟨k - 1, h2⟩ = l.get ⟨l.length - 1, h1⟩ := by
    simp only [List.get_eq_getElem, List.getElem_drop]
    congr 1
    omega
  rw [show l[l.length - 1] = l.get ⟨l.length - 1, h1⟩ from rfl, ← h3]
  exact List.get_mem _ _ _

theorem window_close_bounds (hs ls cs : List ℚ) (k : ℕ) (hk : 1 ≤ k)
    (hlh : hs.length = cs.length) (hll : ls.length = cs.length)
    (hlen : k ≤ cs.length)
    (hbar : ∀ i, i < cs.length →
      ls.getD i 0 ≤ cs.getD i 0 ∧ cs.getD i 0 ≤ hs.getD i 0) :
    findLowest (ls.drop (ls.length - k)) k ≤ cs.getD (cs.length - 1) 0 ∧
      cs.getD (cs.length - 1) 0 ≤ findHighest (hs.drop (hs.length - k)) k := by
  have hn1 : cs.length - 1 < cs.length := by omega
  have hb := hbar (cs.length - 1) hn1
  constructor
  · have hmem : ls.getD (ls.length - 1) 0 ∈ ls.drop (ls.length - k) :=
      last_mem_drop ls k hk (by omega)
    have hlow : findLowest (ls.drop (ls.length - k)) k ≤ ls.getD (ls.length - 1) 0 :=
      findLowest_le_of_mem _ k _ hmem (by rw [List.length_drop]; omega)
    have : ls.getD (ls.length - 1) 0 = ls.getD (cs.length - 1) 0 := by rw [hll]
    linarith [hb.1, this ▸ hlow]
  · have hmem : hs.getD (hs.length - 1) 0 ∈ hs.drop (hs.length - k) :=
      last_mem_drop hs k hk (by omega)
    have hhigh : hs.getD (hs.length - 1) 0 ≤ findHighest (hs.drop (hs.length - k)) k :=
      le_findHighest_of_mem _ k _ hmem (by rw [List.length_drop]; omega)
    have : hs.getD (hs.length - 1) 0 = hs.getD (cs.length - 1) 0 := by rw [hlh]
    linarith [hb.2, this ▸ hhigh]

theorem calculateStochastic_K_bounds (hs ls cs : List ℚ) (k d : ℕ) (hk : 1 ≤ k)
    (hlh : hs.length = cs.length) (hll : ls.length = cs.length)
    (hbar : ∀ i, i < cs.length →
      ls.getD i 0 ≤ cs.getD i 0 ∧ cs.getD i 0 ≤ hs.getD i 0) :
    0 ≤ (calculateStochastic hs ls cs k d).1 ∧
      (calculateStochastic hs ls cs k d).1 ≤ 100 := by
  simp only [calculateStochastic]
  split_ifs with hlen heq
  · norm_num
  · norm_num
  · obtain ⟨hlo, hhi⟩ := window_close_bounds hs ls cs k hk hlh hll (not_lt.mp hlen) hbar
    have hlt : findLowest (ls.drop (ls.length - k)) k <
        findHighest (hs.drop (hs.length - k)) k :=
      lt_of_le_of_ne (le_trans hlo hhi) (fun hcontra => heq hcontra.symm)
    have hpos : (0:ℚ) < findHighest (hs.drop (hs.length - k)) k -
        findLowest (ls.drop (ls.length - k)) k := by linarith
    constructor
    · apply mul_nonneg (div_nonneg (by linarith) (by linarith)) (by norm_num)
    · have hratio : (cs.getD (cs.length - 1) 0 - findLowest (ls.drop (ls.length - k)) k) /
          (findHighest (hs.drop (hs.length - k)) k -
            findLowest (ls.drop (ls.length - k)) k) ≤ 1 := by
        rw [div_le_one hpos]; linarith
      nlinarith [div_nonneg (show (0:ℚ) ≤ cs.getD (cs.length - 1) 0 -
        findLowest (ls.drop (ls.length - k)) k by linarith) hpos.le]

theorem calculateWilliamsR_bounds (hs ls cs : List ℚ) (p : ℕ) (hp : 1 ≤ p)
    (hlh : hs.length = cs.length) (hll : ls.length = cs.length)
    (hbar : ∀ i, i < cs.length →
      ls.getD i 0 ≤ cs.getD i 0 ∧ cs.getD i 0 ≤ hs.getD i 0) :
    -100 ≤ calculateWilliamsR hs ls cs p ∧ calculateWilliamsR hs ls cs p ≤ 0 := by
  simp only [calculateWilliamsR]
  split_ifs with hlen heq
  · norm_num
  · norm_num
  · obtain ⟨hlo, hhi⟩ := window_close_bounds hs ls cs p hp hlh hll (not_lt.mp hlen) hbar
    have hlt : findLowest (ls.drop (ls.length - p)) p <
        findHighest (hs.drop (hs.length - p)) p :=
      lt_of_le_of_ne (le_trans hlo hhi) (fun hcontra => heq hcontra.symm)
    have hpos : (0:ℚ) < findHighest (hs.drop (hs.length - p)) p -
        findLowest (ls.drop (ls.length - p)) p := by linarith
    have hr0 : 0 ≤ (findHighest (hs.drop (hs.length - p)) p - cs.getD (cs.length - 1) 0) /
        (findHighest (hs.drop (hs.length - p)) p - findLowest (ls.drop (ls.length - p)) p) :=
      div_nonneg (by linarith) hpos.le
    have hr1 : (findHighest (hs.drop (hs.length - p)) p - cs.getD (cs.length - 1) 0) /
        (findHighest (hs.drop (hs.length - p)) p -
          findLowest (ls.drop (ls.length - p)) p) ≤ 1 := by
      rw [div_le_one hpos]; linarith
    constructor <;> nlinarith

/-- C7 (counterexample): on 14 bars whose final close (2) lies above every
high (1), Stochastic %K evaluates to 200 > 100 and Williams %R to 100 > 0 —
outside the claimed ranges [0,100] and [−100,0]. -/
theorem stochastic_williams_escape_range :
    100 < (calculateStochastic highsX lowsX closesX 14 3).1 ∧
      0 < calculateWilliamsR highsX lowsX closesX 14 := by
  constructor
  · simp only [calculateStochastic, highsX, lowsX, closesX]
    norm_num [findHighest, findLowest, List.getD_cons_succ, List.getD_cons_zero]
  · simp only [calculateWilliamsR, highsX, lowsX, closesX]
    norm_num [findHighest, findLowest, List.getD_cons_succ, List.getD_cons_zero]

/-- C7 (amended): for any period ≥ 1, `calculateRSI` always stays in [0,100]
and returns exactly 100 when the smoothed average loss is zero; and provided
every bar of the (equal-length) window satisfies low ≤ close ≤ high — which
the unvalidated parsed kline input does not guarantee — Williams %R stays in
[−100,0] and Stochastic %K in [0,100]. -/
theorem indicator_oscillator_range_bounds :
    (∀ (prices : List ℚ) (period : ℕ), 1 ≤ period →
      0 ≤ calculateRSI prices period ∧ calculateRSI prices period ≤ 100) ∧
    (∀ (prices : List ℚ) (period : ℕ), period + 1 ≤ prices.length →
      (rsiAverages prices period).2 = 0 → calculateRSI prices period = 100) ∧
    (∀ (hs ls cs : List ℚ) (k d : ℕ), 1 ≤ k →
      hs.length = cs.length → ls.length = cs.length →
      (∀ i, i < cs.length → ls.getD i 0 ≤ cs.getD i 0 ∧ cs.getD i 0 ≤ hs.getD i 0) →
      0 ≤ (calculateStochastic hs ls cs k d).1 ∧
        (calculateStochastic hs ls cs k d).1 ≤ 100) ∧
    (∀ (hs ls cs : List ℚ) (p : ℕ), 1 ≤ p →
      hs.length = cs.length → ls.length = cs.length →
      (∀ i, i < cs.length → ls.getD i 0 ≤ cs.getD i 0 ∧ cs.getD i 0 ≤ hs.getD i 0) →
      -100 ≤ calculateWilliamsR hs ls cs p ∧ calculateWilliamsR hs ls cs p ≤ 0) :=
  ⟨fun prices period hp => calculateRSI_bounds prices period hp,
    fun prices period hlen hz => calculateRSI_avgLoss_zero prices period hlen hz,
    fun hs ls cs k d hk hlh hll hbar =>
      calculateStochastic_K_bounds hs ls cs k d hk hlh hll hbar,
    fun hs ls cs p hp hlh hll hbar =>
      calculateWilliamsR_bounds hs ls cs p hp hlh hll hbar⟩

/-- C7 (witness): the amended bounds evaluated at concrete inputs — RSI on the
rising window [1,2,3] with period 2 (also hitting the zero-average-loss case),
and %K / %R on a valid two-bar window with highs [2,2], lows [0,0],
closes [1,1]. -/
theorem indicator_oscillator_range_bounds_witness :
    (0 ≤ calculateRSI [1, 2, 3] 2 ∧ calculateRSI [1, 2, 3] 2 ≤ 100) ∧
      calculateRSI [1, 2, 3] 2 = 100 ∧
      (0 ≤ (calculateStochastic [2, 2] [0, 0] [1, 1] 2 3).1 ∧
        (calculateStochastic [2, 2] [0, 0] [1, 1] 2 3).1 ≤ 100) ∧
      (-100 ≤ calculateWilliamsR [2, 2] [0, 0] [1, 1] 2 ∧
        calculateWilliamsR [2, 2] [0, 0] [1, 1] 2 ≤ 0) :=
  ⟨indicator_oscillator_range_bounds.1 [1, 2, 3] 2 (by norm_num),
    indicator_oscillator_range_bounds.2.1 [1, 2, 3] 2 (by norm_num)
      (by norm_num [rsiAverages, priceChanges, gainsLossesInit, wilderStep]),
    indicator_oscillator_range_bounds.2.2.1 [2, 2] [0, 0] [1, 1] 2 3 (by norm_num)
      (by norm_num) (by norm_num)
      (by
        intro i hi
        simp only [List.length_cons, List.length_nil] at hi
        interval_cases i <;>
          norm_num [List.getD_cons_succ, List.getD_cons_zero]),
    indicator_oscillator_range_bounds.2.2.2 [2, 2] [0, 0] [1, 1] 2 (by norm_num)
      (by norm_num) (by norm_num)
      (by
        intro i hi
        simp only [List.length_cons, List.length_nil] at hi
        interval_cases i <;>
          norm_num [List.getD_cons_succ, List.getD_cons_zero])⟩

end CryptoSignalBot
